import Mathlib

/-!
# Verification of `apps/web/lib/api/domains/delete-domain-links.ts`

A shallow embedding of the domain-deletion pipeline of the dub repository:
`deleteDomainAndLinks` (immediate deletion: locate a batch of links, fan out
five concurrent delete/update operations, re-check the remaining link count,
then either defer via qstash or delete the domain row), `markDomainAsDeleted`
(the detach-first flow) and `queueDomainDeletion` (the scheduler bridge).

The external stores (MySQL via prisma, Redis, R2 object storage, the Tinybird
analytics sink, the qstash scheduler and Vercel) are modelled as fields of an
explicit state record `St`.  Remote failures are injected through an
environment record `Env` of success flags: a failed remote call leaves its
store unchanged and settles as a rejected outcome.  The five fan-out
operations touch pairwise distinct stores and are joined with
`Promise.allSettled`, so their combined effect is represented field-wise.

One fidelity point is modelled with care: in the source, the second element
passed to `Promise.allSettled` is `links.filter(...).map(...)` — an *array*
of promises, not a promise — so that element always settles as fulfilled and
the rejection of an individual `storage.delete` call is never captured in the
outcome list; it escapes as an unhandled rejection.  The model records such
escaped rejections in `Run.unhandled`.
-/

namespace DubDelete

/-- The `R2_URL` constant imported from `@dub/utils` (base URL of the object
store).  Its concrete value is irrelevant to the theorems; a fixed string. -/
def R2_URL : String := "https://dubassets.com"

/-- The `APP_DOMAIN_WITH_NGROK` constant imported from `@dub/utils`. -/
def APP_DOMAIN_WITH_NGROK : String := "https://app.dub.co"

/-- A tag row, as eagerly included by `prisma.link.findMany({include: {tags}})`.
Only its `id` is read (to build `tag_ids`). -/
structure Tag where
  id : String
deriving DecidableEq, Repr

/-- A ChildRecord: a row of the `Link` table, with the fields this pipeline
reads (`id`, `domain`, `key`, `url`, `image`, `createdAt`, `projectId`) and
the eagerly loaded `tags`. -/
structure Link where
  id : String
  domain : String
  key : String
  url : String
  image : Option String
  createdAt : Nat
  projectId : Option String
  tags : List Tag
deriving DecidableEq, Repr

/-- A Resource: a row of the `Domain` table (`slug` is its unique key,
`projectId` the owning-workspace reference). -/
structure Domain where
  slug : String
  projectId : Option String
deriving DecidableEq, Repr

/-- The record payload of one Tinybird tombstone event, as built in the
`recordLink` call of `deleteDomainAndLinks`. -/
structure LinkEvent where
  link_id : String
  domain : String
  key : String
  url : String
  tag_ids : List String
  workspace_id : String
  created_at : Nat
  deleted : Bool
deriving DecidableEq, Repr

/-- A job published to qstash by `queueDomainDeletion`:
`publishJSON({url, ...(delay && {delay}), body: {workspaceId, domain}})`. -/
structure Job where
  url : String
  delay : Option Nat
  workspaceId : String
  domain : String
deriving DecidableEq, Repr

/-- The combined state of the external stores:
MySQL `Link` and `Domain` tables, the per-workspace `linksUsage` counters of
the `Project` table, the Redis key set, the R2 object paths, the Tinybird
event log (append only), the qstash queue, and the set of domains registered
at Vercel. -/
structure St where
  links : List Link
  domains : List Domain
  usage : List (String × Int)
  cache : List String
  storage : List String
  events : List LinkEvent
  queue : List Job
  vercelDomains : List String
deriving DecidableEq, Repr

/-- Failure injection for the remote calls: a flag per outbound operation
(`true` = the remote call succeeds).  `storageFailPaths` lists the object
paths whose individual `storage.delete` call rejects. -/
structure Env where
  recordLinkOk : Bool
  storageFailPaths : List String
  redisOk : Bool
  deleteManyOk : Bool
  projectUpdateOk : Bool
  deleteDomainOk : Bool
  qstashOk : Bool
  vercelOk : Bool
  domainUpdateOk : Bool
  linkUpdateOk : Bool
deriving DecidableEq, Repr

/-- Settlement status of one element of a `Promise.allSettled` join. -/
inductive Outcome
  | fulfilled
  | rejected
deriving DecidableEq, Repr

/-- Result of running one of the exported functions: the final store state,
the collected `Promise.allSettled` outcome list (empty when the fan-out was
skipped), the storage-delete rejections that escaped the settlement barrier
(unhandled rejections), and whether the function itself threw. -/
structure Run where
  final : St
  outcomes : List Outcome
  unhandled : List String
  raised : Bool
deriving DecidableEq, Repr

/-- `isPre pat s` models JS `s.startsWith(pat)` over the character sequence. -/
def isPre : List Char → List Char → Bool
  | [], _ => true
  | _ :: _, [] => false
  | a :: as, b :: bs => a == b && isPre as bs

/-- JS `String.prototype.startsWith` on Lean strings. -/
def strStartsWith (s pat : String) : Bool := isPre pat.data s.data

/-- Replace the first occurrence of `pat` in `s` by `repl`, on character
lists — the semantics of JS `String.prototype.replace` with a string
pattern (only the first occurrence is replaced). -/
def repFirst : List Char → List Char → List Char → List Char
  | [], pat, repl => if isPre pat [] then repl else []
  | c :: rest, pat, repl =>
    if isPre pat (c :: rest) then repl ++ (c :: rest).drop pat.length
    else c :: repFirst rest pat repl

/-- JS `s.replace(pat, repl)` with a string pattern. -/
def jsReplaceFirst (s pat repl : String) : String :=
  ⟨repFirst s.data pat.data repl.data⟩

/-- The Record Locator: `prisma.link.findMany({where: {domain}, include:
{tags}, take: 1})` — up to one live link of the given domain, tags included. -/
def batchOf (domain : String) (st : St) : List Link :=
  (st.links.filter (fun l => l.domain == domain)).take 1

/-- `prisma.link.count({where: {domain}})`: the live number of links of the
domain. -/
def linkCount (domain : String) (st : St) : Nat :=
  (st.links.filter (fun l => l.domain == domain)).length

/-- JS `String.prototype.toLowerCase` on Lean strings, character-wise
(`String.toLower` recurses by well-founded byte positions, so the
character-list form is used to keep the embedding kernel-evaluable). -/
def strToLower (s : String) : String := ⟨s.data.map Char.toLower⟩

/-- The cache key deleted for a link: `` `${link.domain}:${link.key}`.toLowerCase() ``. -/
def cacheKey (l : Link) : String := strToLower (l.domain ++ ":" ++ l.key)

/-- The filter of the R2 branch:
`link.image?.startsWith(`${R2_URL}/images/${link.id}`)` (absent image is
falsy, hence skipped). -/
def r2ImageOwned (l : Link) : Bool :=
  match l.image with
  | some img => strStartsWith img (R2_URL ++ "/images/" ++ l.id)
  | none => false

/-- The object path passed to `storage.delete`:
`link.image!.replace(`${R2_URL}/`, "")`. -/
def r2Path (l : Link) : String :=
  jsReplaceFirst (l.image.getD "") (R2_URL ++ "/") ""

/-- Paths of the batch whose `storage.delete` call succeeds. -/
def okStoragePaths (env : Env) (links : List Link) : List String :=
  ((links.filter r2ImageOwned).map r2Path).filter
    (fun p => !env.storageFailPaths.contains p)

/-- Paths of the batch whose `storage.delete` call rejects.  These
rejections live inside the array element handed to `Promise.allSettled`, so
they are never captured in the outcome list. -/
def badStoragePaths (env : Env) (links : List Link) : List String :=
  ((links.filter r2ImageOwned).map r2Path).filter
    (fun p => env.storageFailPaths.contains p)

/-- The tombstone record built for one link inside the `recordLink` call. -/
def toLinkEvent (workspaceId : String) (l : Link) : LinkEvent :=
  { link_id := l.id
    domain := l.domain
    key := l.key
    url := l.url
    tag_ids := l.tags.map (fun t => t.id)
    workspace_id := workspaceId
    created_at := l.createdAt
    deleted := true }

/-- `prisma.project.update({where: {id: workspaceId}, data: {linksUsage:
{decrement: n}}})`: atomic decrement of the matching workspace counter. -/
def decUsage (usage : List (String × Int)) (workspaceId : String) (n : Nat) :
    List (String × Int) :=
  usage.map (fun p => if p.1 == workspaceId then (p.1, p.2 - (n : Int)) else p)

/-- The combined effect of the five fan-out operations joined by
`Promise.allSettled`.  The operations target pairwise distinct stores and
none waits on another, so the joint effect is field-wise; a failed remote
call leaves its store unchanged. -/
def afterFanout (env : Env) (workspaceId : String) (links : List Link)
    (st : St) : St :=
  { st with
    events :=
      if env.recordLinkOk then st.events ++ links.map (toLinkEvent workspaceId)
      else st.events
    storage :=
      st.storage.filter (fun p => !(okStoragePaths env links).contains p)
    cache :=
      if env.redisOk then
        st.cache.filter (fun k => !(links.map cacheKey).contains k)
      else st.cache
    links :=
      if env.deleteManyOk then
        st.links.filter (fun l => !(links.map (fun x => x.id)).contains l.id)
      else st.links
    usage :=
      if env.projectUpdateOk then decUsage st.usage workspaceId links.length
      else st.usage }

/-- The five-element settlement list of the fan-out.  Index 1 is the R2
element: the source passes `links.filter(...).map(...)` — a plain array, not
a promise — so `Promise.allSettled` settles it as fulfilled unconditionally. -/
def fanoutOutcomes (env : Env) : List Outcome :=
  [ if env.recordLinkOk then Outcome.fulfilled else Outcome.rejected,
    Outcome.fulfilled,
    if env.redisOk then Outcome.fulfilled else Outcome.rejected,
    if env.deleteManyOk then Outcome.fulfilled else Outcome.rejected,
    if env.projectUpdateOk then Outcome.fulfilled else Outcome.rejected ]

/-- JS `...(delay && { delay })`: the `delay` field is spread into the
payload only when `delay` is truthy (so a `0` would be dropped too). -/
def effDelay : Option Nat → Option Nat
  | some 0 => none
  | d => d

/-- `queueDomainDeletion`: `qstash.publishJSON({url:
`${APP_DOMAIN_WITH_NGROK}/api/cron/domains/delete`, ...(delay && {delay}),
body: {workspaceId, domain}})`.  Returns the new queue, or `none` when the
publish call rejects. -/
def queueDomainDeletion (workspaceId domain : String) (delay : Option Nat)
    (queue : List Job) (ok : Bool) : Option (List Job) :=
  if ok then
    some (queue ++
      [{ url := APP_DOMAIN_WITH_NGROK ++ "/api/cron/domains/delete"
         delay := effDelay delay
         workspaceId := workspaceId
         domain := domain }])
  else none

/-- `deleteDomainAndLinks({domain, workspaceId})`: fetch a batch of links;
return at once when it is empty; otherwise run the fan-out, await its
settlement, re-query the live link count for the domain, and either
`return await queueDomainDeletion({workspaceId, domain, delay: 2})` (whose
rejection propagates, `raised := true`) when links remain, or
`await prisma.domain.delete({where: {slug: domain}})` (whose rejection also
propagates) when none remain. -/
def deleteDomainAndLinks (env : Env) (domain workspaceId : String)
    (st : St) : Run :=
  let links := batchOf domain st
  if links.isEmpty then
    { final := st, outcomes := [], unhandled := [], raised := false }
  else
    let st1 := afterFanout env workspaceId links st
    let remaining := linkCount domain st1
    if 0 < remaining then
      match queueDomainDeletion workspaceId domain (some 2) st1.queue
          env.qstashOk with
      | some q =>
        { final := { st1 with queue := q }
          outcomes := fanoutOutcomes env
          unhandled := badStoragePaths env links
          raised := false }
      | none =>
        { final := st1
          outcomes := fanoutOutcomes env
          unhandled := badStoragePaths env links
          raised := true }
    else
      if env.deleteDomainOk then
        { final := { st1 with
            domains := st1.domains.filter (fun x => !(x.slug == domain)) }
          outcomes := fanoutOutcomes env
          unhandled := badStoragePaths env links
          raised := false }
      else
        { final := st1
          outcomes := fanoutOutcomes env
          unhandled := badStoragePaths env links
          raised := true }

/-- `markDomainAsDeleted({domain, workspaceId})`: `Promise.allSettled` over
`removeDomainFromVercel(domain)`, `prisma.domain.update({where: {slug:
domain}, data: {projectId: null}})`, `prisma.link.updateMany({where:
{domain}, data: {projectId: null}})` and `queueDomainDeletion({workspaceId,
domain})` (no delay); each rejection is only logged, the function always
returns normally. -/
def markDomainAsDeleted (env : Env) (domain workspaceId : String)
    (st : St) : Run :=
  let st1 := { st with
    vercelDomains :=
      if env.vercelOk then st.vercelDomains.filter (fun s => !(s == domain))
      else st.vercelDomains
    domains :=
      if env.domainUpdateOk then
        st.domains.map (fun x =>
          if x.slug == domain then { x with projectId := none } else x)
      else st.domains
    links :=
      if env.linkUpdateOk then
        st.links.map (fun l =>
          if l.domain == domain then { l with projectId := none } else l)
      else st.links }
  let st2 :=
    match queueDomainDeletion workspaceId domain none st1.queue
        env.qstashOk with
    | some q => { st1 with queue := q }
    | none => st1
  { final := st2
    outcomes :=
      [ if env.vercelOk then Outcome.fulfilled else Outcome.rejected,
        if env.domainUpdateOk then Outcome.fulfilled else Outcome.rejected,
        if env.linkUpdateOk then Outcome.fulfilled else Outcome.rejected,
        if env.qstashOk then Outcome.fulfilled else Outcome.rejected ]
    unhandled := []
    raised := false }

/-! ### Concrete fixtures used by witnesses and counterexamples -/

/-- Environment in which every remote call succeeds. -/
def envAllOk : Env :=
  { recordLinkOk := true, storageFailPaths := [], redisOk := true,
    deleteManyOk := true, projectUpdateOk := true, deleteDomainOk := true,
    qstashOk := true, vercelOk := true, domainUpdateOk := true,
    linkUpdateOk := true }

/-- A link with an asset stored in this system's own R2 namespace. -/
def lnk1 : Link :=
  { id := "lnk1", domain := "go.example", key := "X",
    url := "https://example.com", image := some (R2_URL ++ "/images/lnk1.png"),
    createdAt := 5, projectId := some "ws_1", tags := [⟨"t1"⟩] }

/-- A second link of the same domain, with an external asset reference. -/
def lnk2 : Link :=
  { id := "lnk2", domain := "go.example", key := "y",
    url := "https://example.com/2",
    image := some "https://elsewhere.example/pic.png",
    createdAt := 6, projectId := some "ws_1", tags := [] }

/-- State with a single link for `go.example`. -/
def stOne : St :=
  { links := [lnk1], domains := [⟨"go.example", some "ws_1"⟩],
    usage := [("ws_1", 10)], cache := ["go.example:x"],
    storage := ["images/lnk1.png"], events := [], queue := [],
    vercelDomains := ["go.example"] }

/-- State with two links for `go.example` (the batch is bounded to one, so
one link remains live after the fan-out). -/
def stTwo : St := { stOne with links := [lnk1, lnk2] }

/-- State whose domain row exists but which has no links at all. -/
def stNoLinks : St := { stOne with links := [] }

/-- All-success environment except that the `storage.delete` call for
`lnk1`'s asset path rejects. -/
def envStorageFail : Env :=
  { envAllOk with storageFailPaths := ["images/lnk1.png"] }

/-- All-success environment except that `qstash.publishJSON` rejects. -/
def envQstashFail : Env := { envAllOk with qstashOk := false }

/-- Environment in which only the usage-counter decrement succeeds: the
other four fan-out operations and the follow-up calls all fail. -/
def envOnlyUsage : Env :=
  { recordLinkOk := false, storageFailPaths := ["images/lnk1.png"],
    redisOk := false, deleteManyOk := false, projectUpdateOk := true,
    deleteDomainOk := false, qstashOk := false, vercelOk := false,
    domainUpdateOk := false, linkUpdateOk := false }

/-- All-success environment except that the Vercel release call rejects. -/
def envVercelFail : Env := { envAllOk with vercelOk := false }

/-! ### Helper lemmas -/

/-- Every link of the located batch belongs to the queried domain. -/
theorem batchOf_mem_domain (domain : String) (st : St) :
    ∀ l ∈ batchOf domain st, l.domain = domain := by
  intro l hl
  have hmem : l ∈ st.links.filter (fun l => l.domain == domain) :=
    List.mem_of_mem_take hl
  have := (List.mem_filter.mp hmem).2
  simpa using this

/-- When the batch is non-empty, the five stores touched by the fan-out end
up exactly as `afterFanout` leaves them, whichever convergence branch runs
afterwards, and the settlement data of the run is that of the fan-out. -/
theorem run_fields (env : Env) (domain workspaceId : String) (st : St)
    (hne : (batchOf domain st).isEmpty = false) :
    (deleteDomainAndLinks env domain workspaceId st).final.events =
      (afterFanout env workspaceId (batchOf domain st) st).events ∧
    (deleteDomainAndLinks env domain workspaceId st).final.storage =
      (afterFanout env workspaceId (batchOf domain st) st).storage ∧
    (deleteDomainAndLinks env domain workspaceId st).final.cache =
      (afterFanout env workspaceId (batchOf domain st) st).cache ∧
    (deleteDomainAndLinks env domain workspaceId st).final.usage =
      (afterFanout env workspaceId (batchOf domain st) st).usage ∧
    (deleteDomainAndLinks env domain workspaceId st).outcomes =
      fanoutOutcomes env ∧
    (deleteDomainAndLinks env domain workspaceId st).unhandled =
      badStoragePaths env (batchOf domain st) := by
  unfold deleteDomainAndLinks
  simp only [hne, Bool.false_eq_true, if_false]
  split
  · split <;> simp
  · split <;> simp

/-! ### Claim theorems -/

/-- C10: when the Record Locator returns zero ChildRecords,
`deleteDomainAndLinks` returns immediately with no side effect at all: the
whole store state is unchanged (no tombstone, no cache deletion, no storage
or relational deletion, usage counter untouched, nothing enqueued, domain
row left in place), no outcome is collected and nothing is raised. -/
theorem empty_batch_is_complete_noop (env : Env) (domain workspaceId : String)
    (st : St) (h : batchOf domain st = []) :
    deleteDomainAndLinks env domain workspaceId st =
      { final := st, outcomes := [], unhandled := [], raised := false } := by
  unfold deleteDomainAndLinks
  simp [h]

/-- Witness for C10: on a state with a domain row and no links, the run
returns the state unchanged. -/
theorem empty_batch_is_complete_noop_witness :
    deleteDomainAndLinks envAllOk "go.example" "ws_1" stNoLinks =
      { final := stNoLinks, outcomes := [], unhandled := [], raised := false } :=
  empty_batch_is_complete_noop envAllOk "go.example" "ws_1" stNoLinks (by decide)

/-- C2 counterexample: a resource with zero ChildRecords at invocation time
whose domain row exists.  The pipeline (all remote calls succeeding) leaves
the domain row in place and raises nothing — the parent Resource row is NOT
hard-deleted in that call, contrary to the claim. -/
theorem zero_children_domain_row_survives :
    batchOf "go.example" stNoLinks = [] ∧
    stNoLinks.domains = [{ slug := "go.example", projectId := some "ws_1" }] ∧
    (deleteDomainAndLinks envAllOk "go.example" "ws_1" stNoLinks).final.domains =
      [{ slug := "go.example", projectId := some "ws_1" }] ∧
    (deleteDomainAndLinks envAllOk "go.example" "ws_1" stNoLinks).raised =
      false := by
  decide

/-- C2 amended: for every resource whose Record Locator query returns zero
ChildRecords, the Fan-out Deleter is skipped (no outcome is collected) and
the function returns normally WITHOUT deleting the parent Resource row: the
domain table is left unchanged. -/
theorem zero_children_skips_fanout_keeps_domain (env : Env)
    (domain workspaceId : String) (st : St) (h : batchOf domain st = []) :
    (deleteDomainAndLinks env domain workspaceId st).outcomes = [] ∧
    (deleteDomainAndLinks env domain workspaceId st).final.domains =
      st.domains ∧
    (deleteDomainAndLinks env domain workspaceId st).raised = false := by
  unfold deleteDomainAndLinks
  simp [h]

/-- Witness for the amended C2. -/
theorem zero_children_skips_fanout_keeps_domain_witness :
    (deleteDomainAndLinks envAllOk "go.example" "ws_1" stNoLinks).final.domains =
      stNoLinks.domains :=
  (zero_children_skips_fanout_keeps_domain envAllOk "go.example" "ws_1"
    stNoLinks (by decide)).2.1

/-- C3 (code bug, evaluated at the failing input): `lnk1`'s asset lives in
this system's own R2 namespace and its `storage.delete` call rejects, yet
all five collected outcomes are `fulfilled` — the rejection is not captured
anywhere in the outcome list (the R2 element handed to `Promise.allSettled`
is an array of promises, which settles as fulfilled immediately); the
rejection escapes as an unhandled rejection and the asset survives. -/
theorem storage_rejection_escapes_settlement :
    r2ImageOwned lnk1 = true ∧
    (deleteDomainAndLinks envStorageFail "go.example" "ws_1" stOne).outcomes =
      [Outcome.fulfilled, Outcome.fulfilled, Outcome.fulfilled,
       Outcome.fulfilled, Outcome.fulfilled] ∧
    (deleteDomainAndLinks envStorageFail "go.example" "ws_1" stOne).unhandled =
      ["images/lnk1.png"] ∧
    (deleteDomainAndLinks envStorageFail "go.example" "ws_1" stOne).final.storage =
      ["images/lnk1.png"] := by
  decide

/-- C4 counterexample: on a resource with two links (batch bounded to one,
so one link remains after the fan-out) and a rejecting scheduler, the
incomplete-convergence path `return await queueDomainDeletion(...)` lets
the rejection propagate — `deleteDomainAndLinks` raises, contrary to the
claim that an enqueue failure is non-fatal to its caller. -/
theorem enqueue_failure_raises_from_pipeline :
    0 < linkCount "go.example"
      (afterFanout envQstashFail "ws_1" (batchOf "go.example" stTwo) stTwo) ∧
    (deleteDomainAndLinks envQstashFail "go.example" "ws_1" stTwo).raised =
      true := by
  decide

/-- C4 amended: when the re-queried link count is still positive and the
scheduler rejects the deferred job, the rejection propagates out of
`deleteDomainAndLinks` (the enqueue failure IS fatal to the pipeline's
caller there); the resource is nevertheless left in its intermediate state
(nothing enqueued, domain row untouched) for a later external sweep.  In
the detach flow, by contrast, `markDomainAsDeleted` never raises. -/
theorem enqueue_failure_propagates_but_state_intermediate (env : Env)
    (domain workspaceId : String) (st : St)
    (hne : (batchOf domain st).isEmpty = false)
    (hrem : 0 < linkCount domain
      (afterFanout env workspaceId (batchOf domain st) st))
    (hq : env.qstashOk = false) :
    (deleteDomainAndLinks env domain workspaceId st).raised = true ∧
    (deleteDomainAndLinks env domain workspaceId st).final.queue = st.queue ∧
    (deleteDomainAndLinks env domain workspaceId st).final.domains =
      st.domains ∧
    (markDomainAsDeleted env domain workspaceId st).raised = false := by
  have hmain : deleteDomainAndLinks env domain workspaceId st =
      { final := afterFanout env workspaceId (batchOf domain st) st,
        outcomes := fanoutOutcomes env,
        unhandled := badStoragePaths env (batchOf domain st),
        raised := true } := by
    unfold deleteDomainAndLinks
    simp only [hne, Bool.false_eq_true, if_false]
    rw [if_pos hrem]
    simp [queueDomainDeletion, hq]
  rw [hmain]
  exact ⟨rfl, rfl, rfl, rfl⟩

/-- Witness for the amended C4. -/
theorem enqueue_failure_propagates_but_state_intermediate_witness :
    (deleteDomainAndLinks envQstashFail "go.example" "ws_1" stTwo).final.queue =
      stTwo.queue ∧
    (markDomainAsDeleted envQstashFail "go.example" "ws_1" stTwo).raised =
      false :=
  ⟨(enqueue_failure_propagates_but_state_intermediate envQstashFail
      "go.example" "ws_1" stTwo (by decide) (by decide) rfl).2.1,
   (enqueue_failure_propagates_but_state_intermediate envQstashFail
      "go.example" "ws_1" stTwo (by decide) (by decide) rfl).2.2.2⟩

/-- C1: after the fan-out settles, the live link count is freshly
re-queried on the post-fan-out state.  If it is positive (and the scheduler
accepts), a deferred job carrying the same domain and workspace id with the
fixed delay 2 is enqueued and the domain row is not deleted in this
invocation; if it is zero (and the domain delete call succeeds), the domain
row is deleted in the same invocation and nothing is enqueued. -/
theorem convergence_requeues_or_deletes (env : Env)
    (domain workspaceId : String) (st : St)
    (hne : (batchOf domain st).isEmpty = false) :
    (0 < linkCount domain (afterFanout env workspaceId (batchOf domain st) st) →
      env.qstashOk = true →
      (deleteDomainAndLinks env domain workspaceId st).final.queue =
        st.queue ++
          [{ url := APP_DOMAIN_WITH_NGROK ++ "/api/cron/domains/delete",
             delay := some 2, workspaceId := workspaceId, domain := domain }] ∧
      (deleteDomainAndLinks env domain workspaceId st).final.domains =
        st.domains ∧
      (deleteDomainAndLinks env domain workspaceId st).raised = false) ∧
    (linkCount domain (afterFanout env workspaceId (batchOf domain st) st) = 0 →
      env.deleteDomainOk = true →
      (deleteDomainAndLinks env domain workspaceId st).final.domains =
        st.domains.filter (fun x => !(x.slug == domain)) ∧
      (deleteDomainAndLinks env domain workspaceId st).final.queue =
        st.queue ∧
      (deleteDomainAndLinks env domain workspaceId st).raised = false) := by
  constructor
  · intro hrem hq
    have hmain : deleteDomainAndLinks env domain workspaceId st =
        { final := { afterFanout env workspaceId (batchOf domain st) st with
            queue :=
              (afterFanout env workspaceId (batchOf domain st) st).queue ++
                [{ url := APP_DOMAIN_WITH_NGROK ++ "/api/cron/domains/delete",
                   delay := some 2, workspaceId := workspaceId,
                   domain := domain }] },
          outcomes := fanoutOutcomes env,
          unhandled := badStoragePaths env (batchOf domain st),
          raised := false } := by
      unfold deleteDomainAndLinks
      simp only [hne, Bool.false_eq_true, if_false]
      rw [if_pos hrem]
      simp [queueDomainDeletion, hq, effDelay]
    rw [hmain]
    exact ⟨rfl, rfl, rfl⟩
  · intro hrem hd
    have hmain : deleteDomainAndLinks env domain workspaceId st =
        { final := { afterFanout env workspaceId (batchOf domain st) st with
            domains :=
              (afterFanout env workspaceId (batchOf domain st) st).domains.filter
                (fun x => !(x.slug == domain)) },
          outcomes := fanoutOutcomes env,
          unhandled := badStoragePaths env (batchOf domain st),
          raised := false } := by
      unfold deleteDomainAndLinks
      simp only [hne, Bool.false_eq_true, if_false]
      rw [if_neg (by omega)]
      rw [if_pos hd]
    rw [hmain]
    exact ⟨rfl, rfl, rfl⟩

/-- Witness for C1: with two links on the domain (batch bounded to one), a
deferred job with delay 2 is enqueued. -/
theorem convergence_requeues_or_deletes_witness :
    (deleteDomainAndLinks envAllOk "go.example" "ws_1" stTwo).final.queue =
      stTwo.queue ++
        [{ url := APP_DOMAIN_WITH_NGROK ++ "/api/cron/domains/delete",
           delay := some 2, workspaceId := "ws_1", domain := "go.example" }] :=
  ((convergence_requeues_or_deletes envAllOk "go.example" "ws_1" stTwo
      (by decide)).1 (by decide) rfl).1

/-- C5: once a non-empty batch is chosen, the workspace usage counter is
decremented by exactly the batch length whenever the decrement call itself
succeeds — for every environment, i.e. regardless of whether the relational
bulk delete or any of the other four fan-out operations succeed or fail. -/
theorem usage_decrement_unconditional (env : Env)
    (domain workspaceId : String) (st : St)
    (hne : (batchOf domain st).isEmpty = false)
    (hu : env.projectUpdateOk = true) :
    (deleteDomainAndLinks env domain workspaceId st).final.usage =
      decUsage st.usage workspaceId (batchOf domain st).length := by
  rw [(run_fields env domain workspaceId st hne).2.2.2.1]
  simp [afterFanout, hu]

/-- Witness for C5: with every other fan-out operation failing, the counter
for `ws_1` still drops from 10 to 9 (batch length 1). -/
theorem usage_decrement_unconditional_witness :
    (deleteDomainAndLinks envOnlyUsage "go.example" "ws_1" stOne).final.usage =
      [("ws_1", 9)] := by
  rw [usage_decrement_unconditional envOnlyUsage "go.example" "ws_1" stOne
    (by decide) rfl]
  decide

/-- C6: `markDomainAsDeleted` always returns normally (it never raises,
whatever fails); each of its four operations takes effect whenever its own
remote call succeeds, independently of the Vercel release outcome and of
each other: the domain row's workspace reference is cleared, all the
domain's links have their workspace reference cleared in bulk, the Vercel
name is released, and a cleanup job without a delay field is enqueued. -/
theorem detach_settles_all_independently (env : Env)
    (domain workspaceId : String) (st : St) :
    (markDomainAsDeleted env domain workspaceId st).raised = false ∧
    (env.domainUpdateOk = true →
      (markDomainAsDeleted env domain workspaceId st).final.domains =
        st.domains.map (fun x =>
          if x.slug == domain then { x with projectId := none } else x)) ∧
    (env.linkUpdateOk = true →
      (markDomainAsDeleted env domain workspaceId st).final.links =
        st.links.map (fun l =>
          if l.domain == domain then { l with projectId := none } else l)) ∧
    (env.vercelOk = true →
      (markDomainAsDeleted env domain workspaceId st).final.vercelDomains =
        st.vercelDomains.filter (fun s => !(s == domain))) ∧
    (env.qstashOk = true →
      (markDomainAsDeleted env domain workspaceId st).final.queue =
        st.queue ++
          [{ url := APP_DOMAIN_WITH_NGROK ++ "/api/cron/domains/delete",
             delay := none, workspaceId := workspaceId,
             domain := domain }]) := by
  refine ⟨rfl, ?_, ?_, ?_, ?_⟩ <;> intro h <;>
    (unfold markDomainAsDeleted queueDomainDeletion
     cases hq : env.qstashOk <;> simp_all [effDelay])

/-- Witness for C6: with the Vercel release rejecting and everything else
succeeding, the ownership tombstones and the no-delay enqueue still take
effect. -/
theorem detach_settles_all_independently_witness :
    (markDomainAsDeleted envVercelFail "go.example" "ws_1" stOne).final.domains =
      stOne.domains.map (fun x =>
        if x.slug == "go.example" then { x with projectId := none } else x) ∧
    (markDomainAsDeleted envVercelFail "go.example" "ws_1" stOne).final.queue =
      stOne.queue ++
        [{ url := APP_DOMAIN_WITH_NGROK ++ "/api/cron/domains/delete",
           delay := none, workspaceId := "ws_1", domain := "go.example" }] :=
  ⟨(detach_settles_all_independently envVercelFail "go.example" "ws_1"
      stOne).2.1 rfl,
   (detach_settles_all_independently envVercelFail "go.example" "ws_1"
      stOne).2.2.2.2 rfl⟩

/-- A string that starts with `x ++ y` starts with `x`. -/
theorem isPre_append_weaken (x y s : List Char)
    (h : isPre (x ++ y) s = true) : isPre x s = true := by
  induction x generalizing s with
  | nil => rfl
  | cons a as ih =>
    cases s with
    | nil => simp [isPre] at h
    | cons b bs =>
      simp only [List.cons_append, isPre, Bool.and_eq_true] at h ⊢
      exact ⟨h.1, ih bs h.2⟩

/-- Splitting a string at the length of one of its leading substrings. -/
theorem isPre_append_drop (pat s : List Char) (h : isPre pat s = true) :
    pat ++ s.drop pat.length = s := by
  induction pat generalizing s with
  | nil => simp
  | cons a as ih =>
    cases s with
    | nil => simp [isPre] at h
    | cons b bs =>
      simp only [isPre, Bool.and_eq_true, beq_iff_eq] at h
      simp [h.1, ih bs h.2]

/-- Replacing a leading occurrence by the empty string drops it. -/
theorem repFirst_of_isPre (pat s : List Char) (h : isPre pat s = true) :
    repFirst s pat [] = s.drop pat.length := by
  cases s with
  | nil => simp [repFirst, h]
  | cons c rest => simp [repFirst, h]

/-- Paths handed to `storage.delete` are obtained by stripping the base
object-store URL: putting `R2_URL ++ "/"` back in front of the derived path
gives back the stored absolute URL of any owned asset. -/
theorem r2Path_strips_base (l : Link) (h : r2ImageOwned l = true) :
    R2_URL ++ "/" ++ r2Path l = l.image.getD "" := by
  cases himg : l.image with
  | none => rw [r2ImageOwned, himg] at h; exact absurd h (by simp)
  | some img =>
    have h2 : isPre (R2_URL ++ "/images/" ++ l.id).data img.data = true := by
      rw [r2ImageOwned, himg] at h
      exact h
    have hsplit : R2_URL ++ "/images/" ++ l.id =
        (R2_URL ++ "/") ++ ("images/" ++ l.id) := by
      rw [show ("/images/" : String) = "/" ++ "images/" from rfl]
      rw [String.append_assoc, String.append_assoc, ← String.append_assoc]
    rw [hsplit, String.data_append] at h2
    have hpre : isPre (R2_URL ++ "/").data img.data = true :=
      isPre_append_weaken _ _ _ h2
    apply String.ext
    rw [String.data_append]
    show (R2_URL ++ "/").data ++
      (jsReplaceFirst (l.image.getD "") (R2_URL ++ "/") "").data =
        (Option.getD (some img) "").data
    rw [himg]
    show (R2_URL ++ "/").data ++ repFirst img.data (R2_URL ++ "/").data [] =
      img.data
    rw [repFirst_of_isPre _ _ hpre]
    exact isPre_append_drop _ _ hpre

/-- C7: with no storage-side failures, an object path present in the store
is removed by the run if and only if it is the derived path of some batch
link whose asset reference points into this system's own R2 namespace for
that link's id; links with an absent or external asset reference contribute
no deletion and no error, and the derived path is the stored absolute URL
with the base object-store URL stripped. -/
theorem r2_assets_deleted_iff_owned (env : Env)
    (domain workspaceId : String) (st : St)
    (hne : (batchOf domain st).isEmpty = false)
    (hsf : env.storageFailPaths = []) :
    (∀ p, p ∈ st.storage →
      (p ∈ (deleteDomainAndLinks env domain workspaceId st).final.storage ↔
        p ∉ ((batchOf domain st).filter r2ImageOwned).map r2Path)) ∧
    (∀ l, r2ImageOwned l = true →
      R2_URL ++ "/" ++ r2Path l = l.image.getD "") ∧
    (∀ l, l.image = none → r2ImageOwned l = false) := by
  refine ⟨?_, fun l h => r2Path_strips_base l h,
    fun l h => by simp [r2ImageOwned, h]⟩
  intro p hp
  rw [(run_fields env domain workspaceId st hne).2.1]
  simp [afterFanout, okStoragePaths, hsf, List.mem_filter, hp]

/-- Witness for C7: `lnk1`'s stored asset path is removed from storage. -/
theorem r2_assets_deleted_iff_owned_witness :
    "images/lnk1.png" ∉
      (deleteDomainAndLinks envAllOk "go.example" "ws_1" stOne).final.storage :=
  fun hm =>
    ((r2_assets_deleted_iff_owned envAllOk "go.example" "ws_1" stOne
        (by decide) rfl).1 "images/lnk1.png" (by decide)).mp hm (by decide)

/-- C8: when the analytics write succeeds, the event log is extended by
exactly one tombstone per batch link, appended in a single batched call,
each carrying the link's id, owning domain, key, URL, tag id list, the
workspace id, the original creation time, and `deleted := true`; moreover
every batch link's `domain` field is the queried resource name. -/
theorem tombstone_per_link (env : Env) (domain workspaceId : String)
    (st : St) (hne : (batchOf domain st).isEmpty = false)
    (hr : env.recordLinkOk = true) :
    (deleteDomainAndLinks env domain workspaceId st).final.events =
      st.events ++ (batchOf domain st).map (fun l =>
        { link_id := l.id, domain := l.domain, key := l.key, url := l.url,
          tag_ids := l.tags.map (fun t => t.id),
          workspace_id := workspaceId, created_at := l.createdAt,
          deleted := true }) ∧
    ∀ l ∈ batchOf domain st, l.domain = domain := by
  refine ⟨?_, batchOf_mem_domain domain st⟩
  rw [(run_fields env domain workspaceId st hne).1]
  simp [afterFanout, hr, toLinkEvent]

/-- Witness for C8: the single tombstone for `lnk1`, with its concrete
field values. -/
theorem tombstone_per_link_witness :
    (deleteDomainAndLinks envAllOk "go.example" "ws_1" stOne).final.events =
      [{ link_id := "lnk1", domain := "go.example", key := "X",
         url := "https://example.com", tag_ids := ["t1"],
         workspace_id := "ws_1", created_at := 5, deleted := true }] := by
  rw [(tombstone_per_link envAllOk "go.example" "ws_1" stOne
    (by decide) rfl).1]
  decide

/-- C9: when the cache call succeeds, the keys removed from the cache are
exactly the strings `strToLower (resourceName ++ ":" ++ recordKey)`, one per
batch link — the key construction uses the queried resource name and is
case-normalized by lowercasing. -/
theorem cache_keys_lowercased (env : Env) (domain workspaceId : String)
    (st : St) (hne : (batchOf domain st).isEmpty = false)
    (hr : env.redisOk = true) :
    (deleteDomainAndLinks env domain workspaceId st).final.cache =
      st.cache.filter (fun k =>
        !((batchOf domain st).map
            (fun l => strToLower (domain ++ ":" ++ l.key))).contains k) := by
  rw [(run_fields env domain workspaceId st hne).2.2.1]
  have hmap : (batchOf domain st).map cacheKey =
      (batchOf domain st).map (fun l => strToLower (domain ++ ":" ++ l.key)) :=
    List.map_congr_left (fun l hl => by
      simp [cacheKey, batchOf_mem_domain domain st l hl])
  simp [afterFanout, hr, ← hmap]

/-- Witness for C9: the cache entry `"go.example:x"` is removed — the key
derived from domain `go.example` and record key `X`, lowercased. -/
theorem cache_keys_lowercased_witness :
    (deleteDomainAndLinks envAllOk "go.example" "ws_1" stOne).final.cache =
      [] := by
  rw [cache_keys_lowercased envAllOk "go.example" "ws_1" stOne
    (by decide) rfl]
  decide

end DubDelete
